import Mathlib

/-!
Shallow embedding of `src/kubetop/_topdata.py` (the `kubetop` repository's
single source module).

The module defines `_Source`, a provider of Kubernetes resource-usage data
with two operations, `pods()` and `nodes()`.  Each operation fans out a
handful of asynchronous HTTP GET / typed-list calls with twisted's
`gatherResults`, waits for all of them, and merges the two halves into a
dictionary `{"usage": ..., "info": ...}`.

Modelling choices:

* A twisted `Deferred` whose eventual outcome is known is modelled as
  `Except Err β`: `.ok` for a callback result, `.error` for a failure.
  Errors are opaque and carry only an identifier.
* `twisted.internet.defer.gatherResults` (called with its default
  `consumeErrors` behaviour via `fireOnOneErrback` semantics) resolves, when
  every input deferred succeeds, with the list of their results **in the
  order of the input list** (it stores each result at its input index);
  when some input fails, it fails with the error of the failing deferred
  that fires first.  We model the nondeterministic firing order by an
  explicit `completion : List Nat` parameter listing input indices in the
  order they fire.
* The environment (`PodsEnv`, `NodesEnv`) gives the outcome of every
  external call: `versioned_client()`, `client.list(v1.Namespace)` (as the
  list of `metadata.name` strings of its `items`), `client.list(v1.Pod)`,
  and `client.get(url)` followed by `json_content`.  A pod-usage response
  body is modelled by the value of its `"items"` field: `none` for JSON
  `null`, `some xs` for a JSON array (metric records are an opaque type
  parameter).  Node responses are opaque.
* Python dictionaries built by the code are modelled as association lists
  `List (String × _)` so that the exact key set is visible.
* The outbound HTTP requests a call issues are computed by `podsRequests` /
  `nodesRequests` from the same environment.
-/

/-- Opaque error value (a twisted `Failure`); only identity matters. -/
structure Err where
  id : Nat
deriving DecidableEq, Repr

/-- An outbound request issued against the cluster.  The typed-client list
calls are one API request each; `httpGet` carries the full URL text passed
to `client.get`. -/
inductive Request where
  | listNamespaces : Request
  | listPods : Request
  | httpGet : String → Request
deriving DecidableEq, Repr

/-- Is this request a raw HTTP GET (a per-namespace usage fetch, as opposed
to a typed list call)? -/
def Request.isHttpGet : Request → Bool
  | .httpGet _ => true
  | _ => false

/-- The `\x7b"items": [...]\x7d` document built by `combine`: its `items`
field, which by construction is a (never-null) list. -/
structure UsageDoc (α : Type) where
  items : List α
deriving DecidableEq, Repr

/-- `_Source.pod_location` (`_topdata.py` lines 112–118): the Python code
formats the template
`/api/v1/namespaces/kube-system/services/http:heapster:/proxy/apis/metrics/v1alpha1/namespaces/{namespace}/pods?labelSelector=`
with `.format(namespace=namespace)`; for this single-placeholder template
that splices the namespace string verbatim between the two literal parts. -/
def pod_location (ns : String) : String :=
  "/api/v1/namespaces/kube-system/services/http:heapster:" ++
    "/proxy/apis/metrics/v1alpha1/namespaces/" ++ ns ++
    "/pods?" ++ "labelSelector="

/-- `_Source.node_location` (`_topdata.py` lines 125–134): a fixed constant
path (two adjacent Python string literals). -/
def node_location : String :=
  "/api/v1/namespaces/kube-system/services/http:heapster:" ++
    "/proxy/apis/metrics/v1alpha1/nodes"

/-- The error surfaced by `gatherResults`: scanning the inputs in the order
they fire (`completion` holds input indices in firing order), the first one
whose outcome is a failure. -/
def firstError {β : Type} (ds : List (Except Err β)) (completion : List Nat) :
    Option Err :=
  (completion.filterMap fun i =>
    match ds[i]? with
    | some (Except.error e) => some e
    | _ => none).head?

/-- `twisted.internet.defer.gatherResults` over inputs with known outcomes
`ds`, firing in the order given by `completion`: fails with the first error
to fire; otherwise succeeds with the results in input order. -/
def gatherResults {β : Type} (ds : List (Except Err β)) (completion : List Nat) :
    Except Err (List β) :=
  match firstError ds completion with
  | some e => .error e
  | none => .ok (ds.filterMap Except.toOption)

/-- `gatherResults` specialised to a two-element list of differently typed
deferreds (as used at the top of `pods` and `nodes`).  `bFirst` tells which
input fires first, which only matters when both fail. -/
def gather2 {β γ : Type} (a : Except Err β) (b : Except Err γ) (bFirst : Bool) :
    Except Err (β × γ) :=
  match a, b with
  | .ok x, .ok y => .ok (x, y)
  | .error e, .ok _ => .error e
  | .ok _, .error e => .error e
  | .error ea, .error eb => .error (if bFirst then eb else ea)

/-- The body of `combine` (`_topdata.py` lines 96–103): start from an empty
list, skip every per-namespace usage whose `"items"` is `null`, and append
the items of the rest in order; wrap as `\x7b"items": result\x7d`. -/
def combine {α : Type} (pod_usages : List (Option (List α))) : UsageDoc α :=
  ⟨pod_usages.foldl
    (fun result usage =>
      match usage with
      | none => result
      | some items => result ++ items)
    []⟩

/-- Environment for a `pods()` call: outcomes of every external
sub-operation it can perform. -/
structure PodsEnv (α ι : Type) where
  /-- `self.kubernetes.base_url.asText()`. -/
  baseUrl : String
  /-- Outcome of `self.kubernetes.versioned_client()` (the client value
  itself is opaque, so `Unit`). -/
  versionedClient : Except Err Unit
  /-- Outcome of `client.list(client.model.v1.Namespace)`, as the
  `metadata.name` of each element of its `items`. -/
  listNamespaces : Except Err (List String)
  /-- Outcome of `client.get(url)` chained with `json_content`, for a
  pod-usage URL: the response's `"items"` field (`none` = JSON null). -/
  httpGetJson : String → Except Err (Option (List α))
  /-- Outcome of `client.list(client.model.v1.Pod)`. -/
  podInfo : Except Err ι

/-- The deferreds gathered inside `got_namespaces`: one
`client.get(base_url + pod_location(ns)).addCallback(json_content)` per
namespace, in namespace-listing order. -/
def podUsageGets {α ι : Type} (env : PodsEnv α ι) (nss : List String) :
    List (Except Err (Option (List α))) :=
  nss.map fun ns => env.httpGetJson (env.baseUrl ++ pod_location ns)

/-- `_Source._pod_usage_from_client` (`_topdata.py` lines 81–107):
`versioned_client()`, then `client.list(v1.Namespace)`, then gather one
GET+decode per namespace and `combine` the responses.  `completion` is the
firing order of the per-namespace GETs. -/
def pod_usage_from_client {α ι : Type} (env : PodsEnv α ι)
    (completion : List Nat) : Except Err (UsageDoc α) :=
  env.versionedClient.bind fun _ =>
  env.listNamespaces.bind fun nss =>
  (gatherResults (podUsageGets env nss) completion).map combine

/-- The `info` half of `pods`: `versioned_client().addCallback(_pod_info)`,
i.e. `client.list(client.model.v1.Pod)`. -/
def pod_info_branch {α ι : Type} (env : PodsEnv α ι) : Except Err ι :=
  env.versionedClient.bind fun _ => env.podInfo

/-- A merged result value: either the usage half or the info half. -/
inductive MergedVal (υ ι : Type) where
  | usageVal : υ → MergedVal υ ι
  | infoVal : ι → MergedVal υ ι
deriving DecidableEq, Repr

/-- The dictionary built by the merge lambda in `pods` / `nodes`:
`\x7b"usage": usage_info[0], "info": usage_info[1]\x7d`, as an association
list exposing the exact keys. -/
def mergeUsageInfo {υ ι : Type} (usage_info : υ × ι) :
    List (String × MergedVal υ ι) :=
  [("usage", .usageVal usage_info.1), ("info", .infoVal usage_info.2)]

/-- `_Source.pods` (`_topdata.py` lines 42–57): `self._client()` (a
`versioned_client()` call), then gather the usage half and the info half and
merge them.  `completion` orders the per-namespace GETs; `infoFirst` tells
whether the info half fires before the usage half (relevant only when both
fail). -/
def pods {α ι : Type} (env : PodsEnv α ι) (completion : List Nat)
    (infoFirst : Bool) : Except Err (List (String × MergedVal (UsageDoc α) ι)) :=
  env.versionedClient.bind fun _ =>
  (gather2 (pod_usage_from_client env completion) (pod_info_branch env)
    infoFirst).map mergeUsageInfo

/-- The outbound requests a `pods()` call issues, in issue order: if the
initial `versioned_client()` fails nothing is issued; otherwise the
namespace list call, then (once the namespace list has arrived) one GET per
namespace, and the pod list call.  The typed-client calls carry no URL
string; `versioned_client()` itself issues no request. -/
def podsRequests {α ι : Type} (env : PodsEnv α ι) : List Request :=
  match env.versionedClient with
  | .error _ => []
  | .ok _ =>
    [Request.listNamespaces] ++
      (match env.listNamespaces with
       | .ok nss => nss.map fun ns => Request.httpGet (env.baseUrl ++ pod_location ns)
       | .error _ => []) ++
      [Request.listPods]

/-- Environment for a `nodes()` call. -/
structure NodesEnv (δ : Type) where
  /-- `self.kubernetes.base_url.asText()`. -/
  baseUrl : String
  /-- Outcome of `self.kubernetes.versioned_client()`. -/
  versionedClient : Except Err Unit
  /-- Outcome of `client.get(url)` chained with `json_content`: the decoded
  JSON document (opaque). -/
  httpGetJson : String → Except Err δ

/-- `_Source._node_usage_from_client` (`_topdata.py` lines 120–123):
one GET to `base_url + node_location()`, JSON-decoded. -/
def node_usage_from_client {δ : Type} (env : NodesEnv δ) : Except Err δ :=
  env.httpGetJson (env.baseUrl ++ node_location)

/-- `_Source._node_info_from_client` (`_topdata.py` lines 136–139):
one GET to `base_url + "/api/v1/nodes"`, JSON-decoded. -/
def node_info_from_client {δ : Type} (env : NodesEnv δ) : Except Err δ :=
  env.httpGetJson (env.baseUrl ++ "/api/v1/nodes")

/-- `_Source.nodes` (`_topdata.py` lines 59–74): `self._client()`, then
gather the node-usage GET and the node-info GET and merge them. -/
def nodes {δ : Type} (env : NodesEnv δ) (infoFirst : Bool) :
    Except Err (List (String × MergedVal δ δ)) :=
  env.versionedClient.bind fun _ =>
  (gather2 (node_usage_from_client env) (node_info_from_client env)
    infoFirst).map mergeUsageInfo

/-- The outbound requests a `nodes()` call issues. -/
def nodesRequests {δ : Type} (env : NodesEnv δ) : List Request :=
  match env.versionedClient with
  | .error _ => []
  | .ok _ =>
    [Request.httpGet (env.baseUrl ++ node_location),
     Request.httpGet (env.baseUrl ++ "/api/v1/nodes")]

/-- An object offered to the `_Source` constructor, reduced to the one fact
the `attr.validators.provides(IKubernetes)` validator inspects: whether it
provides the `IKubernetes` interface. -/
structure KubernetesCandidate where
  providesIKubernetes : Bool
deriving DecidableEq, Repr

/-- The constructed `_Source` (its one attribute). -/
structure Source where
  kubernetes : KubernetesCandidate
deriving DecidableEq, Repr

/-- The validation failure `attr` raises at construction time. -/
inductive ConstructError where
  | doesNotProvideIKubernetes : ConstructError
deriving DecidableEq, Repr

/-- `_Source(kubernetes=...)` (`_topdata.py` lines 38–40): the `attr.s`
generated constructor runs `attr.validators.provides(IKubernetes)`
synchronously and raises if the argument does not provide the interface;
otherwise the instance is built. -/
def mkSource (kubernetes : KubernetesCandidate) :
    Except ConstructError Source :=
  if kubernetes.providesIKubernetes then .ok ⟨kubernetes⟩
  else .error .doesNotProvideIKubernetes

/-! ## Helper lemmas -/

/-- The accumulator-generalised characterisation of the loop in `combine`. -/
theorem combine_foldl {α : Type} (xs : List (Option (List α))) (acc : List α) :
    xs.foldl
      (fun result usage =>
        match usage with
        | none => result
        | some items => result ++ items)
      acc = acc ++ (xs.filterMap id).flatten := by
  induction xs generalizing acc with
  | nil => simp
  | cons x xs ih =>
    cases x with
    | none => simpa using ih acc
    | some items => simp [ih, List.append_assoc]

/-- `combine` drops the `null` batches and flattens the rest, in order. -/
theorem combine_items {α : Type} (xs : List (Option (List α))) :
    (combine xs).items = (xs.filterMap id).flatten := by
  simpa using combine_foldl xs []

/-- If every gathered deferred succeeds, no error fires, whatever the firing
order. -/
theorem firstError_of_all_ok {β : Type} (ds : List (Except Err β))
    (completion : List Nat) (h : ∀ d ∈ ds, ∃ v, d = .ok v) :
    firstError ds completion = none := by
  simp only [firstError, List.head?_eq_none_iff, List.filterMap_eq_nil_iff]
  intro i _
  cases hd : ds[i]? with
  | none => simp
  | some d =>
    obtain ⟨v, hv⟩ := h d (List.getElem?_mem hd)
    subst hv
    simp

/-- When no error fires, `gatherResults` succeeds with the results in input
order. -/
theorem gatherResults_of_firstError_none {β : Type} (ds : List (Except Err β))
    (completion : List Nat) (h : firstError ds completion = none) :
    gatherResults ds completion = .ok (ds.filterMap Except.toOption) := by
  simp [gatherResults, h]

/-! ## Claim theorems -/

/-- C2: the pod-usage flattening skips every response whose `"items"` field
is `null` and concatenates the `"items"` lists of the remaining responses in
order; in particular `[none, some [a, b], none, some [c]]` flattens to
`\x7b"items": [a, b, c]\x7d`.  The merged result's `items` is a genuine
list (never `null`): `combine` always wraps the accumulated `List α`. -/
theorem combine_skips_null_and_concatenates {α : Type}
    (xs : List (Option (List α))) (a b c : α) :
    (combine xs).items = (xs.filterMap id).flatten
    ∧ combine [none, some [a, b], none, some [c]] = ⟨[a, b, c]⟩ := by
  refine ⟨combine_items xs, ?_⟩
  rfl

/-- C10: `combine` is a list homomorphism: it maps `++` of input sequences
to `++` of the flattened item lists, and the empty input to
`\x7b"items": []\x7d`.  Being a pure function of its input sequence, it is
deterministic by construction. -/
theorem combine_homomorphism {α : Type} (xs ys : List (Option (List α))) :
    (combine (xs ++ ys)).items = (combine xs).items ++ (combine ys).items
    ∧ combine ([] : List (Option (List α))) = ⟨[]⟩ := by
  refine ⟨?_, rfl⟩
  simp [combine_items, List.filterMap_append]

/-- C6: for every namespace name `ns`, `pod_location ns` is exactly the
fixed prefix, then `ns` spliced verbatim (no escaping), then
`/pods?labelSelector=`. -/
theorem pod_location_inserts_verbatim (ns : String) :
    pod_location ns =
      "/api/v1/namespaces/kube-system/services/http:heapster:/proxy/apis/metrics/v1alpha1/namespaces/"
        ++ ns ++ "/pods?labelSelector=" := by
  unfold pod_location
  rw [show ("/api/v1/namespaces/kube-system/services/http:heapster:" : String) ++
        "/proxy/apis/metrics/v1alpha1/namespaces/" =
        "/api/v1/namespaces/kube-system/services/http:heapster:/proxy/apis/metrics/v1alpha1/namespaces/"
        from rfl,
      String.append_assoc _ "/pods?" "labelSelector=",
      show ("/pods?" : String) ++ "labelSelector=" = "/pods?labelSelector=" from rfl]

/-- C5: every `nodes()` call that reaches its request phase issues its
node-usage GET at exactly `base_url ++ node_location`, where
`node_location` is the fixed constant path, which contains no `?` (hence no
query string). -/
theorem node_usage_request_exact {δ : Type} (env : NodesEnv δ)
    (hvc : env.versionedClient = .ok ()) :
    nodesRequests env =
      [Request.httpGet (env.baseUrl ++ node_location),
       Request.httpGet (env.baseUrl ++ "/api/v1/nodes")]
    ∧ node_location =
        "/api/v1/namespaces/kube-system/services/http:heapster:/proxy/apis/metrics/v1alpha1/nodes"
    ∧ node_location.toList.count '?' = 0 := by
  refine ⟨?_, by rfl, by decide⟩
  simp [nodesRequests, hvc]

/-- C9: the `attr.s`-generated `_Source` constructor validates its
`kubernetes` argument with `attr.validators.provides(IKubernetes)`
synchronously, before any `pods()` / `nodes()` call is possible: an object
that provides `IKubernetes` yields an instance holding it; one that does
not raises the validation error. -/
theorem mkSource_validates (k : KubernetesCandidate) :
    (k.providesIKubernetes = true → mkSource k = .ok ⟨k⟩)
    ∧ (k.providesIKubernetes = false →
        mkSource k = .error .doesNotProvideIKubernetes) := by
  constructor
  · intro h
    simp [mkSource, h]
  · intro h
    simp [mkSource, h]

/-- Witness for C9 at the two concrete candidates. -/
theorem mkSource_validates_witness :
    mkSource ⟨true⟩ = .ok ⟨⟨true⟩⟩
    ∧ mkSource ⟨false⟩ = .error .doesNotProvideIKubernetes :=
  ⟨(mkSource_validates ⟨true⟩).1 rfl, (mkSource_validates ⟨false⟩).2 rfl⟩

/-- If the merge step produced a success, its value is the two-key
dictionary built by the merge lambda. -/
theorem map_mergeUsageInfo_keys {υ ι : Type} (x : Except Err (υ × ι))
    (r : List (String × MergedVal υ ι)) (h : x.map mergeUsageInfo = .ok r) :
    r.map Prod.fst = ["usage", "info"] := by
  cases x with
  | error e => simp [Except.map] at h
  | ok p =>
    simp only [Except.map] at h
    cases h
    rfl

/-- C1: every successful `pods()` and every successful `nodes()` resolves
to a dictionary whose keys are exactly `usage` then `info` — no extra key,
neither missing; `usage` holds the metrics half and `info` the typed-list
half (enforced by the `MergedVal` tags in the result type). -/
theorem pods_nodes_merge_shape {α ι δ : Type} (env : PodsEnv α ι)
    (envN : NodesEnv δ) (completion : List Nat) (bF bFN : Bool)
    (r : List (String × MergedVal (UsageDoc α) ι))
    (rN : List (String × MergedVal δ δ)) :
    (pods env completion bF = .ok r → r.map Prod.fst = ["usage", "info"])
    ∧ (nodes envN bFN = .ok rN → rN.map Prod.fst = ["usage", "info"]) := by
  constructor
  · intro h
    unfold pods at h
    cases hvc : env.versionedClient with
    | error e => rw [hvc] at h; simp [Except.bind] at h
    | ok u => rw [hvc] at h; exact map_mergeUsageInfo_keys _ _ h
  · intro h
    unfold nodes at h
    cases hvc : envN.versionedClient with
    | error e => rw [hvc] at h; simp [Except.bind] at h
    | ok u => rw [hvc] at h; exact map_mergeUsageInfo_keys _ _ h

/-- A `pods()` environment in which every sub-operation succeeds and there
are no namespaces. -/
def envPodsOk : PodsEnv Nat Nat where
  baseUrl := ""
  versionedClient := .ok ()
  listNamespaces := .ok []
  httpGetJson := fun _ => .ok none
  podInfo := .ok 0

/-- A `nodes()` environment in which every GET succeeds. -/
def envNodesOk : NodesEnv Nat where
  baseUrl := ""
  versionedClient := .ok ()
  httpGetJson := fun _ => .ok 5

/-- Witness for C1: a concrete successful `pods()` and `nodes()` call. -/
theorem pods_nodes_merge_shape_witness :
    (([("usage", MergedVal.usageVal (⟨[]⟩ : UsageDoc Nat)),
       ("info", MergedVal.infoVal (0 : Nat))]).map Prod.fst = ["usage", "info"])
    ∧ (([("usage", MergedVal.usageVal (5 : Nat)),
        ("info", MergedVal.infoVal (5 : Nat))]).map Prod.fst = ["usage", "info"]) :=
  ⟨(pods_nodes_merge_shape envPodsOk envNodesOk [] false false
      [("usage", MergedVal.usageVal (⟨[]⟩ : UsageDoc Nat)),
       ("info", MergedVal.infoVal (0 : Nat))]
      [("usage", MergedVal.usageVal (5 : Nat)),
       ("info", MergedVal.infoVal (5 : Nat))]).1 rfl,
   (pods_nodes_merge_shape envPodsOk envNodesOk [] false false
      [("usage", MergedVal.usageVal (⟨[]⟩ : UsageDoc Nat)),
       ("info", MergedVal.infoVal (0 : Nat))]
      [("usage", MergedVal.usageVal (5 : Nat)),
       ("info", MergedVal.infoVal (5 : Nat))]).2 rfl⟩

/-- C3: when the namespace listing succeeds with an empty list (and the
other sub-operations succeed), `pods()` resolves with the usage document
`\x7b"items": []\x7d`, and the request log of the call contains no raw
per-namespace GET at all. -/
theorem pods_zero_namespaces {α ι : Type} (env : PodsEnv α ι)
    (completion : List Nat) (infoFirst : Bool) (i : ι)
    (hvc : env.versionedClient = .ok ())
    (hns : env.listNamespaces = .ok [])
    (hinfo : env.podInfo = .ok i) :
    pods env completion infoFirst =
      .ok [("usage", .usageVal ⟨[]⟩), ("info", .infoVal i)]
    ∧ (podsRequests env).filter Request.isHttpGet = [] := by
  constructor
  · have h0 : firstError (podUsageGets env []) completion = none :=
      firstError_of_all_ok _ _ (by simp [podUsageGets])
    have h1 : gatherResults (podUsageGets env []) completion = .ok [] := by
      rw [gatherResults_of_firstError_none _ _ h0]
      simp [podUsageGets]
    have husage : pod_usage_from_client env completion = .ok ⟨[]⟩ := by
      simp [pod_usage_from_client, hvc, hns, Except.bind, h1, Except.map, combine]
    simp [pods, hvc, Except.bind, husage, pod_info_branch, hinfo, gather2,
      Except.map, mergeUsageInfo]
  · simp [podsRequests, hvc, hns, Request.isHttpGet]

/-- A zero-namespace environment for the C3 witness. -/
def envZeroNs : PodsEnv Nat Nat where
  baseUrl := ""
  versionedClient := .ok ()
  listNamespaces := .ok []
  httpGetJson := fun _ => .ok none
  podInfo := .ok 3

/-- Witness for C3 at `envZeroNs`. -/
theorem pods_zero_namespaces_witness :
    pods envZeroNs [] false =
      .ok [("usage", .usageVal ⟨[]⟩), ("info", .infoVal 3)]
    ∧ (podsRequests envZeroNs).filter Request.isHttpGet = [] :=
  pods_zero_namespaces envZeroNs [] false 3 rfl rfl rfl

/-- C4: any single failing sub-operation makes the `pods()` future fail
with that (first) failure, the other branches' outcomes being discarded —
in an `Except`-valued model a failed call yields no partial result by
construction.  The four cases: the initial `versioned_client()` fails; the
namespace listing fails (info half succeeding); one per-namespace GET (or
its JSON decode) is the first failure to fire (info half succeeding); all
GETs succeed but the pod list call fails. -/
theorem pods_failure_propagation {α ι : Type} (env : PodsEnv α ι)
    (completion : List Nat) (infoFirst : Bool) :
    (∀ e, env.versionedClient = .error e →
      pods env completion infoFirst = .error e)
    ∧ (∀ e i, env.versionedClient = .ok () → env.listNamespaces = .error e →
        env.podInfo = .ok i →
        pods env completion infoFirst = .error e)
    ∧ (∀ nss e i, env.versionedClient = .ok () →
        env.listNamespaces = .ok nss →
        firstError (podUsageGets env nss) completion = some e →
        env.podInfo = .ok i →
        pods env completion infoFirst = .error e)
    ∧ (∀ nss e, env.versionedClient = .ok () →
        env.listNamespaces = .ok nss →
        firstError (podUsageGets env nss) completion = none →
        env.podInfo = .error e →
        pods env completion infoFirst = .error e) := by
  refine ⟨?_, ?_, ?_, ?_⟩
  · intro e hvc
    simp [pods, hvc, Except.bind]
  · intro e i hvc hns hinfo
    have husage : pod_usage_from_client env completion = .error e := by
      simp [pod_usage_from_client, hvc, hns, Except.bind]
    simp [pods, hvc, Except.bind, husage, pod_info_branch, hinfo, gather2,
      Except.map]
  · intro nss e i hvc hns hfe hinfo
    have husage : pod_usage_from_client env completion = .error e := by
      simp [pod_usage_from_client, hvc, hns, Except.bind, gatherResults, hfe,
        Except.map]
    simp [pods, hvc, Except.bind, husage, pod_info_branch, hinfo, gather2,
      Except.map]
  · intro nss e hvc hns hfe hinfo
    have husage : pod_usage_from_client env completion =
        .ok (combine ((podUsageGets env nss).filterMap Except.toOption)) := by
      simp [pod_usage_from_client, hvc, hns, Except.bind,
        gatherResults_of_firstError_none _ _ hfe, Except.map]
    simp [pods, hvc, Except.bind, husage, pod_info_branch, hinfo, gather2,
      Except.map]

/-- An environment in which only the GET for namespace `b` fails (error id
7); its deferred fires first under completion order `[1, 0]`. -/
def envOneGetFails : PodsEnv Nat Nat where
  baseUrl := ""
  versionedClient := .ok ()
  listNamespaces := .ok ["a", "b"]
  httpGetJson := fun u =>
    if u = "" ++ pod_location "b" then .error ⟨7⟩ else .ok (some [1])
  podInfo := .ok 0

/-- Witness for C4: with namespaces `a` and `b`, only `b`'s GET failing and
every other sub-operation succeeding, `pods()` fails with `b`'s error. -/
theorem pods_failure_propagation_witness :
    pods envOneGetFails [1, 0] false = .error ⟨7⟩ :=
  (pods_failure_propagation envOneGetFails [1, 0] false).2.2.1
    ["a", "b"] ⟨7⟩ 0 rfl rfl rfl rfl

/-- C7: when the initial `versioned_client()` and the namespace listing
succeed with `n` namespaces, a `pods()` call issues exactly `n + 2`
outbound requests (one namespace list, `n` per-namespace GETs, one pod
list); two independent calls, each against a connection reporting `n`
namespaces, issue `2 * (n + 2)` — the request log is recomputed per call,
with no cache or deduplication shared between calls. -/
theorem pods_request_count {α ι : Type} (env env2 : PodsEnv α ι)
    (nss nss2 : List String) (n : Nat)
    (hvc : env.versionedClient = .ok ())
    (hns : env.listNamespaces = .ok nss)
    (hvc2 : env2.versionedClient = .ok ())
    (hns2 : env2.listNamespaces = .ok nss2)
    (hn : nss.length = n) (hn2 : nss2.length = n) :
    (podsRequests env).length = n + 2
    ∧ (podsRequests env ++ podsRequests env2).length = 2 * (n + 2) := by
  have l1 : (podsRequests env).length = n + 2 := by
    simp [podsRequests, hvc, hns, hn]
  have l2 : (podsRequests env2).length = n + 2 := by
    simp [podsRequests, hvc2, hns2, hn2]
  refine ⟨l1, ?_⟩
  simp [List.length_append, l1, l2]
  omega

/-- A two-namespace all-success environment for the C7 witness. -/
def envTwoNs : PodsEnv Nat Nat where
  baseUrl := ""
  versionedClient := .ok ()
  listNamespaces := .ok ["kube-system", "default"]
  httpGetJson := fun _ => .ok (some [1])
  podInfo := .ok 0

/-- Witness for C7 at `envTwoNs` (n = 2), calling twice. -/
theorem pods_request_count_witness :
    (podsRequests envTwoNs).length = 2 + 2
    ∧ (podsRequests envTwoNs ++ podsRequests envTwoNs).length = 2 * (2 + 2) :=
  pods_request_count envTwoNs envTwoNs ["kube-system", "default"]
    ["kube-system", "default"] 2 rfl rfl rfl rfl rfl rfl

/-- The item order the C8 claim describes, stated from the spec's words (a
refinement-comparison definition, not a translation of the code): flatten
the per-namespace responses in the order their deferreds fire
(`completion`), rather than in the input order of the fan-in. -/
def specItemsByCompletionOrder {α ι : Type} (env : PodsEnv α ι)
    (nss : List String) (completion : List Nat) : List α :=
  (combine (completion.filterMap fun i =>
    ((podUsageGets env nss)[i]?).bind Except.toOption)).items

/-- An all-success environment with namespaces `a` (items `[1]`) and `b`
(items `[2]`), whose GETs fire in the order `[1, 0]` (namespace `b`
first). -/
def envOrder : PodsEnv Nat Nat where
  baseUrl := ""
  versionedClient := .ok ()
  listNamespaces := .ok ["a", "b"]
  httpGetJson := fun u =>
    if u = "" ++ pod_location "a" then .ok (some [1]) else .ok (some [2])
  podInfo := .ok 0

/-- Counterexample to C8 as stated: with completion order `[1, 0]`
(namespace `b`'s GET fires first), completion order would give items
`[2, 1]`, but the code resolves with `[1, 2]` — `gatherResults` hands
`combine` the responses in input (namespace-listing) order, not in
completion order. -/
theorem pod_usage_completion_order_refuted :
    pod_usage_from_client envOrder [1, 0] = .ok ⟨[1, 2]⟩
    ∧ specItemsByCompletionOrder envOrder ["a", "b"] [1, 0] = [2, 1]
    ∧ ([1, 2] : List Nat) ≠ [2, 1] := by
  refine ⟨rfl, rfl, by decide⟩

/-- C8 amended: within `pods()`, when every per-namespace GET succeeds, the
flattened usage list follows the namespace-listing order (the input order
of the deferreds handed to the fan-in primitive), whatever the completion
order of the GETs — `completion` is universally quantified and absent from
the right-hand side. -/
theorem pod_usage_listing_order {α ι : Type} (env : PodsEnv α ι)
    (completion : List Nat) (nss : List String)
    (hvc : env.versionedClient = .ok ())
    (hns : env.listNamespaces = .ok nss)
    (hok : ∀ d ∈ podUsageGets env nss, ∃ v, d = .ok v) :
    pod_usage_from_client env completion =
      .ok (combine ((podUsageGets env nss).filterMap Except.toOption)) := by
  have h0 := firstError_of_all_ok _ completion hok
  have h1 := gatherResults_of_firstError_none _ completion h0
  simp [pod_usage_from_client, hvc, hns, Except.bind, h1, Except.map]

/-- Witness for the amended C8 at `envOrder` with completion order
`[1, 0]`. -/
theorem pod_usage_listing_order_witness :
    pod_usage_from_client envOrder [1, 0] =
      .ok (combine ((podUsageGets envOrder ["a", "b"]).filterMap
        Except.toOption)) :=
  pod_usage_listing_order envOrder [1, 0] ["a", "b"] rfl rfl (by
    intro d hd
    rw [show podUsageGets envOrder ["a", "b"] =
      [Except.ok (some [1]), Except.ok (some [2])] from rfl] at hd
    simp only [List.mem_cons, List.not_mem_nil, or_false] at hd
    rcases hd with h | h
    · exact ⟨some [1], h⟩
    · exact ⟨some [2], h⟩)

/-- A concrete `nodes()` environment for the C5 witness. -/
def envNodesUrl : NodesEnv Nat where
  baseUrl := "https://cluster.example"
  versionedClient := .ok ()
  httpGetJson := fun _ => .ok 0

/-- Witness for C5 at `envNodesUrl`. -/
theorem node_usage_request_exact_witness :
    nodesRequests envNodesUrl =
      [Request.httpGet ("https://cluster.example" ++ node_location),
       Request.httpGet ("https://cluster.example" ++ "/api/v1/nodes")]
    ∧ node_location =
        "/api/v1/namespaces/kube-system/services/http:heapster:/proxy/apis/metrics/v1alpha1/nodes"
    ∧ node_location.toList.count '?' = 0 :=
  node_usage_request_exact envNodesUrl rfl
